import Mathlib

/-!
Verification of the Car-Guy discord bot (src/main.py) against its
natural-language specification.

The interactive command find_car (main.py lines 99-199) is embedded as an
explicit state machine: the two wait points (brand selection, then the
paginated model/year selection loop) become waiting states consuming
timestamped input events; the wait_for filters check and reaction_check
(lines 106-107 and 135-136) are translated verbatim; the timeout of the
underlying waits becomes an explicit deadline carried in each waiting
state.  The image resolver get_image_url (lines 40-73) is embedded over an
abstract outcome of its single HTTP request.  Python primitives that the
code relies on (str.isdigit, str.strip, str.replace, urllib.parse.quote,
list slicing) are given faithful executable models.
-/

namespace CarGuy

/-- One row of the per-brand model table: the tuple (model, year, trim id)
appended at main.py line 33. -/
structure Trim where
  model : String
  year : String
  trim_id : String
deriving DecidableEq

/-- The in-memory lookup tables built at startup (main.py lines 17-36):
car_brands maps make to make id, kept as the ordered association list the
dict iteration of line 102/113 walks; car_models maps a make to its list
of trims (a total function, since car_models is a defaultdict). -/
structure Catalog where
  car_brands : List (String × String)
  car_models : String → List Trim

/-- Python str.isdigit restricted to ASCII content: the string is nonempty
and every character is a decimal digit. -/
def pyIsDigit (s : String) : Bool :=
  !s.data.isEmpty && s.data.all Char.isDigit

/-- Python str.strip: remove leading and trailing whitespace. -/
def pyStrip (s : String) : String :=
  ⟨((s.data.dropWhile Char.isWhitespace).reverse.dropWhile Char.isWhitespace).reverse⟩

/-- The invoking context: author and channel of the command message. -/
structure Ctx where
  author : Nat
  channel : Nat
deriving DecidableEq

/-- An incoming free-text chat message. -/
structure Msg where
  author : Nat
  channel : Nat
  content : String
deriving DecidableEq

/-- An incoming reaction event: reacting user, emoji, and the id of the
message reacted to. -/
structure Reaction where
  user : Nat
  emoji : String
  message_id : Nat
deriving DecidableEq

/-- main.py lines 106-107: the message filter passed to wait_for.  A
message is considered only when it is from the invoking author, in the
invoking channel, and its whole content is digits. -/
def check (ctx : Ctx) (m : Msg) : Bool :=
  m.author == ctx.author && m.channel == ctx.channel && pyIsDigit m.content

/-- main.py lines 135-136: the reaction filter passed to wait_for.  A
reaction is considered only when it is from the invoking author, is one of
the two page-turn emoji, and is on the rendered options message. -/
def reaction_check (ctx : Ctx) (message_id : Nat) (r : Reaction) : Bool :=
  r.user == ctx.author && (r.emoji == "⬅️" || r.emoji == "➡️") && r.message_id == message_id

/-- main.py line 113: first brand whose make id equals the stripped reply,
none when no brand matches. -/
def selectBrand (brands : List (String × String)) (sid : String) : Option String :=
  (brands.find? (fun p => p.2 == sid)).map (fun p => p.1)

/-- main.py lines 159-160: first (model, year) whose trim id equals the
stripped reply, searched over the full model list; none models the caught
StopIteration. -/
def selectTrim (models : List Trim) (sid : String) : Option (String × String) :=
  (models.find? (fun t => t.trim_id == sid)).map (fun t => (t.model, t.year))

/-- Recursion worker for paginate, structurally recursive on a fuel
argument so that the kernel can evaluate it; the fuel starts at the list
length and every step consumes at least one element, so the zero-fuel
branch is never reached from paginate. -/
def paginateGo {α : Type} : Nat → List α → List (List α)
  | _, [] => []
  | 0, _ :: _ => []
  | n + 1, x :: xs => ((x :: xs).take 10) :: paginateGo n ((x :: xs).drop 10)

/-- main.py lines 95-97: yield options[i : i + 10] for i in
range(0, len(options), 10); the page size is the default 10 used at the
only call site (line 125). -/
def paginate {α : Type} (l : List α) : List (List α) :=
  paginateGo l.length l

/-- main.py lines 170-173: the page update performed on a page-turn
reaction.  Subtraction on Nat coincides with the max(p - 1, 0) of
line 173. -/
def turnPage (emoji : String) (npages p : Nat) : Nat :=
  if emoji == "➡️" then min (p + 1) (npages - 1)
  else if emoji == "⬅️" then p - 1
  else p

/-- The rendered page view: pages[p] (main.py lines 129 and 177-179). -/
def pageAt {α : Type} (pages : List (List α)) (p : Nat) : List α :=
  pages.getD p []

/-- An input event delivered at a wait point: either a free-text message
or a reaction.  Absence of input is modelled by the event timestamp
passing the deadline carried in the waiting state, and by finalize when
the event stream ends. -/
inductive Input where
  | message (m : Msg)
  | reaction (r : Reaction)
deriving DecidableEq

/-- User-visible outputs of one step of the dialogue: the re-rendered
options page (lines 128-130 and 175-180), the invalid-brand error embed
(line 116), the invalid-model error embed (line 165), and the timeout
error embed (lines 121 and 185). -/
inductive Out where
  | renderModels (brand : String) (view : List Trim)
  | invalidBrand
  | invalidModel
  | tooLong
deriving DecidableEq

/-- The control state of one run of find_car: waiting for the brand reply
(lines 109-122), looping in the model/year selection (lines 138-186), or
terminated.  Waiting states carry the absolute deadline of the current
wait: each wait_for call of the source gets a fresh 30 second window, so
every transition that re-enters a waiting state sets deadline to the
event time plus TIMEOUT, while ignored (filtered) events leave the
deadline of the ongoing wait unchanged. -/
inductive Phase where
  | waitBrand (deadline : Nat)
  | waitModel (brand : String) (models : List Trim) (pages : List (List Trim))
      (page : Nat) (deadline : Nat)
  | finished (brand model year : String)
  | abortedInvalidBrand
  | abortedTimeout
deriving DecidableEq

/-- The timeout constant passed to every wait_for and asyncio.wait call
(main.py lines 111, 141, 142): 30 seconds. -/
def TIMEOUT : Nat := 30

/-- One step of the find_car dialogue on a timestamped event.  Mirrors
main.py lines 109-186: a message passing check is looked up by id
(abort on an unknown brand id, line 117; re-prompt with a fresh window on
an unknown trim id, line 166); a reaction passing reaction_check turns the
page with turnPage and re-renders; events failing the filters are ignored
by wait_for itself, leaving the state and the running window untouched;
an event arriving at or after the deadline means the wait already timed
out, which aborts the flow with the too-long notice. -/
def stepPhase (cat : Catalog) (ctx : Ctx) (message_id : Nat)
    (p : Phase) (ev : Nat × Input) : Phase × List Out :=
  match p with
  | .waitBrand dl =>
    if dl ≤ ev.1 then (.abortedTimeout, [.tooLong])
    else
      match ev.2 with
      | .message m =>
        if check ctx m then
          match selectBrand cat.car_brands (pyStrip m.content) with
          | none => (.abortedInvalidBrand, [.invalidBrand])
          | some b =>
            let ms := cat.car_models b
            let pages := paginate ms
            (.waitModel b ms pages 0 (ev.1 + TIMEOUT), [.renderModels b (pageAt pages 0)])
        else (.waitBrand dl, [])
      | .reaction _ => (.waitBrand dl, [])
  | .waitModel b ms pages pg dl =>
    if dl ≤ ev.1 then (.abortedTimeout, [.tooLong])
    else
      match ev.2 with
      | .message m =>
        if check ctx m then
          match selectTrim ms (pyStrip m.content) with
          | some my => (.finished b my.1 my.2, [])
          | none => (.waitModel b ms pages pg (ev.1 + TIMEOUT), [.invalidModel])
        else (.waitModel b ms pages pg dl, [])
      | .reaction r =>
        if reaction_check ctx message_id r then
          let pg2 := turnPage r.emoji pages.length pg
          (.waitModel b ms pages pg2 (ev.1 + TIMEOUT),
            [.renderModels b (pageAt pages pg2)])
        else (.waitModel b ms pages pg dl, [])
  | q => (q, [])

/-- After the event stream ends no further input ever arrives, so a state
still waiting runs out its window and times out. -/
def finalize : Phase → Phase
  | .waitBrand _ => .abortedTimeout
  | .waitModel _ _ _ _ _ => .abortedTimeout
  | q => q

/-- The find_car command (main.py lines 99-199) as a run of the dialogue
state machine over a finite stream of timestamped events, starting from
the brand wait whose window opens at invocation time t0. -/
def find_car (cat : Catalog) (ctx : Ctx) (message_id : Nat) (t0 : Nat)
    (events : List (Nat × Input)) : Phase :=
  finalize (events.foldl (fun p ev => (stepPhase cat ctx message_id p ev).1)
    (.waitBrand (t0 + TIMEOUT)))

/-- The arguments the image resolver is invoked with (main.py line 189):
get_image_url is called exactly when the dialogue finished with a brand,
model and year, and with exactly those three values. -/
def resolverCall : Phase → Option (String × String × String)
  | .finished b m y => some (b, m, y)
  | _ => none

/-- One hit of the media search response, exposing the title field read at
main.py line 60. -/
structure SearchHit where
  title : String

/-- The parsed response body path data.query.search (main.py line 59). -/
structure SearchData where
  search : List SearchHit

/-- The outcome of the single HTTP request of get_image_url: a transport
failure (the exception caught at line 70), or a response with a status
code and a body that either parses to the expected shape or is malformed
(json decoding or key lookup raising, also caught at line 70). -/
inductive ApiOutcome where
  | transportError
  | httpResponse (status : Nat) (body : Except Unit SearchData)

/-- The UTF-8 encoding of one character as a list of byte values. -/
def utf8Bytes (c : Char) : List Nat :=
  let n := c.toNat
  if n < 128 then [n]
  else if n < 2048 then [192 + n / 64, 128 + n % 64]
  else if n < 65536 then [224 + n / 4096, 128 + n / 64 % 64, 128 + n % 64]
  else [240 + n / 262144, 128 + n / 4096 % 64, 128 + n / 64 % 64, 128 + n % 64]

/-- Uppercase hexadecimal digit, as produced by urllib percent-encoding. -/
def hexDigit (n : Nat) : Char :=
  if n < 10 then Char.ofNat (48 + n) else Char.ofNat (55 + n)

/-- urllib.parse.quote treatment of one byte with the default safe set:
letters, digits, underscore, dot, hyphen, tilde and the slash pass
through, every other byte becomes a percent escape. -/
def quoteByte (b : Nat) : List Char :=
  if (65 ≤ b ∧ b ≤ 90) ∨ (97 ≤ b ∧ b ≤ 122) ∨ (48 ≤ b ∧ b ≤ 57)
      ∨ b = 95 ∨ b = 46 ∨ b = 45 ∨ b = 126 ∨ b = 47 then
    [Char.ofNat b]
  else
    ['%', hexDigit (b / 16), hexDigit (b % 16)]

/-- urllib.parse.quote with the default safe set (main.py line 62):
percent-encode the UTF-8 bytes of the string. -/
def quote (s : String) : String :=
  ⟨s.data.flatMap (fun c => (utf8Bytes c).flatMap quoteByte)⟩

/-- Python str.replace of the five character token File: by the empty
string (main.py line 61): every non-overlapping occurrence is removed,
scanning left to right, not only a leading prefix. -/
def pyReplaceFile : List Char → List Char
  | 'F' :: 'i' :: 'l' :: 'e' :: ':' :: rest => pyReplaceFile rest
  | c :: cs => c :: pyReplaceFile cs
  | [] => []

/-- main.py lines 40-73, given the outcome of its single request: on a 200
response whose body parses and has at least one hit, build the file URL
from the first title by removing the File: token, percent-encoding, and
substituting into the fixed Special:FilePath template; in every other
case fall through to returning none (line 73). -/
def get_image_url (api : ApiOutcome) : Option String :=
  match api with
  | .transportError => none
  | .httpResponse status body =>
    if status = 200 then
      match body with
      | .error _ => none
      | .ok data =>
        match data.search with
        | [] => none
        | hit :: _ =>
          let file_name := String.mk (pyReplaceFile hit.title.data)
          let file_name := quote file_name
          some ("https://commons.wikimedia.org/wiki/Special:FilePath/" ++ file_name)
    else none

/-- Follows the words of the specification for claim C7 (not the source):
the URL obtained by stripping the file-prefix token from the front of the
title, percent-encoding the remainder, and substituting it into the fixed
URL template. -/
def specStripPrefixUrl (title : String) : String :=
  let stripped :=
    if title.data.take 5 = ['F', 'i', 'l', 'e', ':'] then String.mk (title.data.drop 5)
    else title
  "https://commons.wikimedia.org/wiki/Special:FilePath/" ++ quote stripped

/-- Recursion worker for chunk1024, structurally recursive on a fuel
argument starting at the list length; every step consumes at least one
character, so the zero-fuel branch is never reached from chunk1024. -/
def chunkGo : Nat → List Char → List (List Char)
  | _, [] => []
  | 0, _ :: _ => []
  | n + 1, c :: cs => ((c :: cs).take 1024) :: chunkGo n ((c :: cs).drop 1024)

/-- main.py line 80: value[i : i + 1024] for i in range(0, len(value), 1024). -/
def chunk1024 (value : List Char) : List (List Char) :=
  chunkGo value.length value

/-- main.py lines 78-84: the embed fields produced for one supplied
(name, value) pair; a value longer than 1024 characters is added as
enumerated part fields holding its consecutive 1024 character chunks,
a shorter value is added unchanged.  Strings are modelled as lists of
characters so that length and slicing match the Python semantics. -/
def fieldEntries (name : String) (value : List Char) : List (String × List Char) :=
  if 1024 < value.length then
    (chunk1024 value).enum.map (fun ic => (name ++ " (part " ++ toString (ic.1 + 1) ++ ")", ic.2))
  else [(name, value)]

/-- main.py lines 75-88 restricted to the field processing: the list of
embed fields created for the supplied fields. -/
def create_embed (fields : List (String × List Char)) : List (String × List Char) :=
  fields.flatMap (fun nv => fieldEntries nv.1 nv.2)

/-- A concrete catalog holding brand Honda with model Civic and the years
2020 and 2021, shaped exactly as the startup loader builds it from a
two-row CSV: one make id for Honda and one trim row per year. -/
def exampleCatalog : Catalog :=
  ⟨[("Honda", "1")],
   fun b => if b = "Honda" then [⟨"Civic", "2020", "1"⟩, ⟨"Civic", "2021", "2"⟩] else []⟩

/-- A concrete invoking context. -/
def exampleCtx : Ctx := ⟨0, 0⟩

theorem paginateGo_length {α : Type} :
    ∀ (n : Nat) (l : List α), l.length ≤ n →
      (paginateGo n l).length = (l.length + 10 - 1) / 10
  | _, [], _ => by simp [paginateGo]
  | 0, _ :: _, h => by simp at h
  | n + 1, x :: xs, h => by
    have ih := paginateGo_length n ((x :: xs).drop 10) (by simp at h ⊢; omega)
    simp only [paginateGo, List.length_cons, ih, List.length_drop]
    omega

theorem paginateGo_mem {α : Type} :
    ∀ (n : Nat) (l : List α) (p : List α), p ∈ paginateGo n l → p.length ≤ 10
  | _, [], _, h => by simp [paginateGo] at h
  | 0, _ :: _, _, h => by simp [paginateGo] at h
  | n + 1, x :: xs, p, h => by
    simp only [paginateGo, List.mem_cons] at h
    rcases h with h | h
    · subst h; simp [List.length_take]
    · exact paginateGo_mem n _ p h

/-- Claim C6: for every option list of length L and the fixed page size
10, paginate produces exactly ceil(L/10) pages and every page holds at
most 10 options. -/
theorem paginate_page_count {α : Type} (l : List α) :
    (paginate l).length = (l.length + 10 - 1) / 10
    ∧ ∀ p ∈ paginate l, p.length ≤ 10 :=
  ⟨paginateGo_length l.length l (Nat.le_refl _),
   fun p hp => paginateGo_mem l.length l p hp⟩

/-- Concrete instantiation of paginate_page_count on a 25 element list. -/
theorem paginate_page_count_witness :
    (paginate (List.range 25)).length = (25 + 10 - 1) / 10
    ∧ (List.range 25).take 10 ∈ paginate (List.range 25)
    ∧ ((List.range 25).take 10).length ≤ 10 :=
  ⟨(paginate_page_count (List.range 25)).1, by decide,
   (paginate_page_count (List.range 25)).2 _ (by decide)⟩

theorem turnPage_lt (e : String) (n p : Nat) (h : p < n) : turnPage e n p < n := by
  unfold turnPage
  split
  · omega
  · split <;> omega

/-- Claim C5: under every sequence of page-turn signals the page index
stays below the page count, and a next signal on the last page or a prev
signal on page zero is a no-op: the page index is unchanged and the
re-rendered view is the view of the unchanged page. -/
theorem page_turn_in_range (cat : Catalog) (ctx : Ctx) (mid : Nat) (b : String)
    (ms : List Trim) (pages : List (List Trim)) (dl t : Nat) (r : Reaction)
    (hn : 0 < pages.length) (ht : t < dl) (hr : reaction_check ctx mid r = true) :
    (∀ (es : List String) (p : Nat), p < pages.length →
      es.foldl (fun q e => turnPage e pages.length q) p < pages.length)
    ∧ (r.emoji = "➡️" →
        stepPhase cat ctx mid (.waitModel b ms pages (pages.length - 1) dl) (t, .reaction r)
          = (.waitModel b ms pages (pages.length - 1) (t + TIMEOUT),
             [.renderModels b (pageAt pages (pages.length - 1))]))
    ∧ (r.emoji = "⬅️" →
        stepPhase cat ctx mid (.waitModel b ms pages 0 dl) (t, .reaction r)
          = (.waitModel b ms pages 0 (t + TIMEOUT),
             [.renderModels b (pageAt pages 0)])) := by
  refine ⟨?_, ?_, ?_⟩
  · intro es
    induction es with
    | nil => intro p hp; simpa using hp
    | cons e es ih =>
      intro p hp
      exact ih (turnPage e pages.length p) (turnPage_lt e pages.length p hp)
  · intro he
    simp only [stepPhase, Nat.not_le.mpr ht, if_false, hr, if_true, he, turnPage]
    simp [Nat.min_eq_right (show pages.length - 1 ≤ pages.length - 1 + 1 by omega)]
  · intro he
    simp only [stepPhase, Nat.not_le.mpr ht, if_false, hr, if_true, he, turnPage]
    simp

/-- Concrete instantiation of page_turn_in_range: a next signal on the
last of two pages leaves the page index and the rendered view unchanged. -/
theorem page_turn_in_range_witness :
    (0 : Nat) < 2 ∧ (1 : Nat) < 30
    ∧ reaction_check exampleCtx 7 ⟨0, "➡️", 7⟩ = true
    ∧ stepPhase exampleCatalog exampleCtx 7
        (.waitModel "Honda" [] [[], []] 1 30) (1, .reaction ⟨0, "➡️", 7⟩)
        = (.waitModel "Honda" [] [[], []] 1 31, [.renderModels "Honda" (pageAt [[], []] 1)]) :=
  ⟨by decide, by decide, by decide,
   (page_turn_in_range exampleCatalog exampleCtx 7 "Honda" [] [[], []] 30 1 ⟨0, "➡️", 7⟩
     (by decide) (by decide) (by decide)).2.1 rfl⟩

theorem chunkGo_flatten :
    ∀ (n : Nat) (l : List Char), l.length ≤ n → (chunkGo n l).flatten = l
  | _, [], _ => by simp [chunkGo]
  | 0, _ :: _, h => by simp at h
  | n + 1, c :: cs, h => by
    have ih := chunkGo_flatten n ((c :: cs).drop 1024) (by simp at h ⊢; omega)
    simp only [chunkGo, List.flatten_cons, ih, List.take_append_drop]

theorem chunkGo_mem :
    ∀ (n : Nat) (l : List Char) (p : List Char), p ∈ chunkGo n l → p.length ≤ 1024
  | _, [], _, h => by simp [chunkGo] at h
  | 0, _ :: _, _, h => by simp [chunkGo] at h
  | n + 1, c :: cs, p, h => by
    simp only [chunkGo, List.mem_cons] at h
    rcases h with h | h
    · subst h; simp [List.length_take]
    · exact chunkGo_mem n _ p h

theorem fieldEntries_map_snd (name : String) (value : List Char) :
    (fieldEntries name value).map Prod.snd
      = if 1024 < value.length then chunk1024 value else [value] := by
  unfold fieldEntries
  split
  · simp only [List.map_map]
    have : (Prod.snd ∘ fun ic : Nat × List Char =>
        (name ++ " (part " ++ toString (ic.1 + 1) ++ ")", ic.2)) = Prod.snd := rfl
    rw [this, List.enum_map_snd]
  · simp

theorem fieldEntries_len_le (name : String) (value : List Char) :
    ∀ e ∈ fieldEntries name value, e.2.length ≤ 1024 := by
  intro e he
  have h2 : e.2 ∈ (fieldEntries name value).map Prod.snd := List.mem_map_of_mem _ he
  rw [fieldEntries_map_snd] at h2
  by_cases hl : 1024 < value.length
  · rw [if_pos hl] at h2
    exact chunkGo_mem value.length value e.2 h2
  · rw [if_neg hl] at h2
    simp only [List.mem_singleton] at h2
    rw [h2]
    omega

/-- Claim C10: every field value created by create_embed has length at
most 1024; a supplied value longer than 1024 is split into consecutive
chunks of at most 1024 characters whose concatenation is the original
value, and a value of length at most 1024 is added unchanged. -/
theorem create_embed_chunking (name : String) (value : List Char)
    (fields : List (String × List Char)) :
    (∀ e ∈ fieldEntries name value, e.2.length ≤ 1024)
    ∧ ((fieldEntries name value).map Prod.snd).flatten = value
    ∧ (value.length ≤ 1024 → fieldEntries name value = [(name, value)])
    ∧ ∀ e ∈ create_embed fields, e.2.length ≤ 1024 := by
  refine ⟨fieldEntries_len_le name value, ?_, ?_, ?_⟩
  · rw [fieldEntries_map_snd]
    split
    · exact chunkGo_flatten value.length value (Nat.le_refl _)
    · simp
  · intro h
    unfold fieldEntries
    rw [if_neg (by omega)]
  · intro e he
    simp only [create_embed, List.mem_flatMap] at he
    rcases he with ⟨nv, _, hee⟩
    exact fieldEntries_len_le nv.1 nv.2 e hee

/-- Concrete instantiation of create_embed_chunking on a short value. -/
theorem create_embed_chunking_witness :
    (("Options", [ 'a', 'b' ]) ∈ fieldEntries "Options" [ 'a', 'b' ]
      → ([ 'a', 'b' ] : List Char).length ≤ 1024)
    ∧ ((fieldEntries "Options" [ 'a', 'b' ]).map Prod.snd).flatten = [ 'a', 'b' ]
    ∧ fieldEntries "Options" [ 'a', 'b' ] = [("Options", [ 'a', 'b' ])] :=
  ⟨fun h => (create_embed_chunking "Options" [ 'a', 'b' ] []).1 _ h,
   (create_embed_chunking "Options" [ 'a', 'b' ] []).2.1,
   (create_embed_chunking "Options" [ 'a', 'b' ] []).2.2.1 (by decide)⟩

/-- Claim C7 counterexample: the source removes every occurrence of the
File: token from the hit title, so on the title File:File:A.jpg it does
not return the URL obtained by stripping only the leading file-prefix
token as the claim states. -/
theorem strip_prefix_refuted :
    get_image_url (.httpResponse 200 (.ok ⟨[⟨"File:File:A.jpg"⟩]⟩))
      = some "https://commons.wikimedia.org/wiki/Special:FilePath/A.jpg"
    ∧ specStripPrefixUrl "File:File:A.jpg"
      = "https://commons.wikimedia.org/wiki/Special:FilePath/File%3AA.jpg"
    ∧ get_image_url (.httpResponse 200 (.ok ⟨[⟨"File:File:A.jpg"⟩]⟩))
      ≠ some (specStripPrefixUrl "File:File:A.jpg") := by
  refine ⟨by decide, by decide, by decide⟩

/-- Claim C7 as amended: on a 200 response whose first hit has title T,
the resolver returns the fixed template with the percent-encoding of T
after removal of every occurrence of the File: token (which equals
stripping the leading token whenever the token occurs only as a prefix). -/
theorem get_image_url_first_hit (t : String) (rest : List SearchHit) :
    get_image_url (.httpResponse 200 (.ok ⟨⟨t⟩ :: rest⟩))
      = some ("https://commons.wikimedia.org/wiki/Special:FilePath/"
          ++ quote (String.mk (pyReplaceFile t.data))) := rfl

/-- Claim C8: the resolver returns none on a transport failure, on any
non-200 status code, on a malformed response body, and on a well-formed
response with zero hits; it is a total function of the single request
outcome, so it neither raises, nor retries, nor distinguishes the failure
causes to its caller. -/
theorem get_image_url_failures (s : Nat) (body : Except Unit SearchData) (hs : s ≠ 200) :
    get_image_url .transportError = none
    ∧ get_image_url (.httpResponse s body) = none
    ∧ get_image_url (.httpResponse 200 (.error ())) = none
    ∧ get_image_url (.httpResponse 200 (.ok ⟨[]⟩)) = none := by
  refine ⟨rfl, ?_, rfl, rfl⟩
  simp [get_image_url, hs]

/-- Concrete instantiation of get_image_url_failures at status 404. -/
theorem get_image_url_failures_witness :
    ((404 : Nat) ≠ 200)
    ∧ get_image_url .transportError = none
    ∧ get_image_url (.httpResponse 404 (.error ())) = none
    ∧ get_image_url (.httpResponse 200 (.error ())) = none
    ∧ get_image_url (.httpResponse 200 (.ok ⟨[]⟩)) = none :=
  ⟨by decide,
   (get_image_url_failures 404 (.error ()) (by decide)).1,
   (get_image_url_failures 404 (.error ()) (by decide)).2.1,
   (get_image_url_failures 404 (.error ()) (by decide)).2.2.1,
   (get_image_url_failures 404 (.error ()) (by decide)).2.2.2⟩

/-- Claim C4: the wait window is one documented constant of 30 seconds,
inside the 30 to 60 second range; when the window of a waiting state
elapses without an accepted input the dialogue transitions to the timeout
abort with the too-long notice, the abort state absorbs every further
event (no automatic retry), and a state left waiting when the event
stream ends finalizes to the same timeout abort. -/
theorem timeout_aborts (cat : Catalog) (ctx : Ctx) (mid : Nat) (dl t : Nat) (i : Input)
    (b : String) (ms : List Trim) (pages : List (List Trim)) (pg : Nat)
    (h : dl ≤ t) :
    (30 ≤ TIMEOUT ∧ TIMEOUT ≤ 60)
    ∧ stepPhase cat ctx mid (.waitBrand dl) (t, i) = (.abortedTimeout, [.tooLong])
    ∧ stepPhase cat ctx mid (.waitModel b ms pages pg dl) (t, i) = (.abortedTimeout, [.tooLong])
    ∧ (∀ ev, stepPhase cat ctx mid .abortedTimeout ev = (.abortedTimeout, []))
    ∧ finalize (.waitBrand dl) = .abortedTimeout
    ∧ finalize (.waitModel b ms pages pg dl) = .abortedTimeout := by
  refine ⟨by decide, ?_, ?_, fun ev => rfl, rfl, rfl⟩
  · simp [stepPhase, h]
  · simp [stepPhase, h]

/-- Concrete instantiation of timeout_aborts at the expiry instant. -/
theorem timeout_aborts_witness :
    (30 : Nat) ≤ 30
    ∧ stepPhase exampleCatalog exampleCtx 0 (.waitBrand 30) (30, .message ⟨0, 0, "1"⟩)
        = (.abortedTimeout, [.tooLong]) :=
  ⟨Nat.le_refl 30,
   (timeout_aborts exampleCatalog exampleCtx 0 30 30 (.message ⟨0, 0, "1"⟩)
     "" [] [] 0 (Nat.le_refl 30)).2.1⟩

/-- Claim C9: an event is considered only when it passes the source
filters: a message must be from the invoking author, in the invoking
channel, with content made entirely of digits; a reaction must be from
the invoking author, be one of the two page-turn emoji, and sit on the
rendered options message.  Every event failing its filter is silently
ignored: the state (page and running window included) is unchanged and no
output is produced. -/
theorem event_filtering (cat : Catalog) (ctx : Ctx) (mid : Nat) (m : Msg) (r : Reaction)
    (dl t : Nat) (b : String) (ms : List Trim) (pages : List (List Trim)) (pg : Nat)
    (ht : t < dl) :
    (check ctx m = true ↔
      m.author = ctx.author ∧ m.channel = ctx.channel
        ∧ m.content.data ≠ [] ∧ ∀ c ∈ m.content.data, c.isDigit = true)
    ∧ (check ctx m = false →
        stepPhase cat ctx mid (.waitBrand dl) (t, .message m) = (.waitBrand dl, []))
    ∧ (check ctx m = false →
        stepPhase cat ctx mid (.waitModel b ms pages pg dl) (t, .message m)
          = (.waitModel b ms pages pg dl, []))
    ∧ (reaction_check ctx mid r = true ↔
        r.user = ctx.author ∧ (r.emoji = "⬅️" ∨ r.emoji = "➡️") ∧ r.message_id = mid)
    ∧ (reaction_check ctx mid r = false →
        stepPhase cat ctx mid (.waitModel b ms pages pg dl) (t, .reaction r)
          = (.waitModel b ms pages pg dl, [])) := by
  refine ⟨?_, ?_, ?_, ?_, ?_⟩
  · simp [check, pyIsDigit, List.isEmpty_iff, and_assoc]
  · intro hc
    simp [stepPhase, Nat.not_le.mpr ht, hc]
  · intro hc
    simp [stepPhase, Nat.not_le.mpr ht, hc]
  · simp [reaction_check, and_assoc]
  · intro hc
    simp [stepPhase, Nat.not_le.mpr ht, hc]

/-- Concrete instantiation of event_filtering: the reply Honda is not all
digits, so the brand wait ignores it silently. -/
theorem event_filtering_witness :
    (1 : Nat) < 30
    ∧ check exampleCtx ⟨0, 0, "Honda"⟩ = false
    ∧ stepPhase exampleCatalog exampleCtx 0 (.waitBrand 30) (1, .message ⟨0, 0, "Honda"⟩)
        = (.waitBrand 30, []) :=
  ⟨by decide, by decide,
   (event_filtering exampleCatalog exampleCtx 0 ⟨0, 0, "Honda"⟩ ⟨0, "➡️", 0⟩
     30 1 "" [] [] 0 (by decide)).2.1 (by decide)⟩

/-- Claim C3 counterexample: at the brand step a digits reply matching no
option does not remain in the same waiting state re-prompting, as the
claim states: the flow aborts. -/
theorem invalid_selection_stay_refuted :
    stepPhase exampleCatalog exampleCtx 0 (.waitBrand 30) (1, .message ⟨0, 0, "99"⟩)
      = (.abortedInvalidBrand, [.invalidBrand])
    ∧ Phase.abortedInvalidBrand ≠ Phase.waitBrand 30 := by
  refine ⟨by decide, by decide⟩

/-- Claim C3 as amended: a digits reply matching no option emits an
invalid-selection notice, but the two steps differ: the brand step
aborts the flow, while the model step remains on the same page and the
next wait cycle receives a fresh full window (deadline t + TIMEOUT). -/
theorem invalid_selection_behavior (cat : Catalog) (ctx : Ctx) (mid : Nat) (m : Msg)
    (dl t : Nat) (b : String) (ms : List Trim) (pages : List (List Trim)) (pg : Nat)
    (ht : t < dl) (hc : check ctx m = true) :
    (selectBrand cat.car_brands (pyStrip m.content) = none →
      stepPhase cat ctx mid (.waitBrand dl) (t, .message m)
        = (.abortedInvalidBrand, [.invalidBrand]))
    ∧ (selectTrim ms (pyStrip m.content) = none →
      stepPhase cat ctx mid (.waitModel b ms pages pg dl) (t, .message m)
        = (.waitModel b ms pages pg (t + TIMEOUT), [.invalidModel])) := by
  constructor
  · intro hb
    simp [stepPhase, Nat.not_le.mpr ht, hc, hb]
  · intro hb
    simp [stepPhase, Nat.not_le.mpr ht, hc, hb]

/-- Concrete instantiation of invalid_selection_behavior at the model
step: page and state kept, notice emitted, window refreshed. -/
theorem invalid_selection_behavior_witness :
    (1 : Nat) < 30
    ∧ check exampleCtx ⟨0, 0, "99"⟩ = true
    ∧ selectTrim (exampleCatalog.car_models "Honda") (pyStrip "99") = none
    ∧ stepPhase exampleCatalog exampleCtx 0
        (.waitModel "Honda" (exampleCatalog.car_models "Honda") [] 0 30)
        (1, .message ⟨0, 0, "99"⟩)
        = (.waitModel "Honda" (exampleCatalog.car_models "Honda") [] 0 31, [.invalidModel]) :=
  ⟨by decide, by decide, by decide,
   (invalid_selection_behavior exampleCatalog exampleCtx 0 ⟨0, 0, "99"⟩ 30 1
     "Honda" (exampleCatalog.car_models "Honda") [] 0 (by decide) (by decide)).2 (by decide)⟩

/-- Claim C2 counterexample: a free-text reply equal to an option label
(matching it case-insensitively after trimming) does not resolve the
selector: the digit filter ignores it and the state is unchanged. -/
theorem free_text_match_refuted :
    stepPhase exampleCatalog exampleCtx 0
      (.waitModel "Honda" [⟨"Civic", "2020", "1"⟩, ⟨"Civic", "2021", "2"⟩]
        [[⟨"Civic", "2020", "1"⟩, ⟨"Civic", "2021", "2"⟩]] 0 30)
      (1, .message ⟨0, 0, "Civic"⟩)
      = (.waitModel "Honda" [⟨"Civic", "2020", "1"⟩, ⟨"Civic", "2021", "2"⟩]
          [[⟨"Civic", "2020", "1"⟩, ⟨"Civic", "2021", "2"⟩]] 0 30, [])
    ∧ Phase.waitModel "Honda" [⟨"Civic", "2020", "1"⟩, ⟨"Civic", "2021", "2"⟩]
        [[⟨"Civic", "2020", "1"⟩, ⟨"Civic", "2021", "2"⟩]] 0 30
      ≠ Phase.finished "Honda" "Civic" "2020" := by
  refine ⟨by decide, by decide⟩

/-- Claim C2 as amended: a reply whose whole content is digits and whose
stripped content equals the id displayed with an option resolves the
selector to the first option carrying that id, in canonical casing,
regardless of the page currently shown; the id is searched over the full
option list, not only the visible page. -/
theorem digit_id_resolves_any_page (cat : Catalog) (ctx : Ctx) (mid : Nat) (m : Msg)
    (dl t : Nat) (b bb : String) (ms : List Trim) (pages : List (List Trim)) (pg : Nat)
    (mo y : String) (ht : t < dl) (hc : check ctx m = true) :
    (selectTrim ms (pyStrip m.content) = some (mo, y) →
      stepPhase cat ctx mid (.waitModel b ms pages pg dl) (t, .message m)
        = (.finished b mo y, []))
    ∧ (selectBrand cat.car_brands (pyStrip m.content) = some bb →
      stepPhase cat ctx mid (.waitBrand dl) (t, .message m)
        = (.waitModel bb (cat.car_models bb) (paginate (cat.car_models bb)) 0 (t + TIMEOUT),
           [.renderModels bb (pageAt (paginate (cat.car_models bb)) 0)])) := by
  constructor
  · intro hf
    simp [stepPhase, Nat.not_le.mpr ht, hc, hf]
  · intro hf
    simp [stepPhase, Nat.not_le.mpr ht, hc, hf]

/-- Concrete instantiation of digit_id_resolves_any_page: the reply 2 on
an arbitrary page index resolves to Civic 2021. -/
theorem digit_id_resolves_any_page_witness :
    (1 : Nat) < 30
    ∧ check exampleCtx ⟨0, 0, "2"⟩ = true
    ∧ selectTrim (exampleCatalog.car_models "Honda") (pyStrip "2") = some ("Civic", "2021")
    ∧ stepPhase exampleCatalog exampleCtx 0
        (.waitModel "Honda" (exampleCatalog.car_models "Honda") [] 5 30)
        (1, .message ⟨0, 0, "2"⟩)
        = (.finished "Honda" "Civic" "2021", []) :=
  ⟨by decide, by decide, by decide,
   (digit_id_resolves_any_page exampleCatalog exampleCtx 0 ⟨0, 0, "2"⟩ 30 1
     "Honda" "" (exampleCatalog.car_models "Honda") [] 5 "Civic" "2021"
     (by decide) (by decide)).1 (by decide)⟩

/-- Claim C1 counterexample: on the catalog holding Honda, Civic and the
years 2020 and 2021, replying the words Honda, Civic and then 2020 does
not reach the resolver: the first two replies are ignored by the digit
filter and the third, being digits but no valid brand number, aborts the
flow, so the resolver is never invoked. -/
theorem find_car_text_replies_refuted :
    find_car exampleCatalog exampleCtx 0 0
      [(1, .message ⟨0, 0, "Honda"⟩), (2, .message ⟨0, 0, "Civic"⟩), (3, .message ⟨0, 0, "2020"⟩)]
      = .abortedInvalidBrand
    ∧ resolverCall (find_car exampleCatalog exampleCtx 0 0
        [(1, .message ⟨0, 0, "Honda"⟩), (2, .message ⟨0, 0, "Civic"⟩), (3, .message ⟨0, 0, "2020"⟩)])
      ≠ some ("Honda", "Civic", "2020") := by
  refine ⟨by decide, by decide⟩

/-- Claim C1 as amended: on every catalog in which some brand number
resolves to Honda and some trim number resolves to Civic 2020, invoking
the command and replying those two numbers drives the flow through its
two wait steps (brand, then the paginated joint model and year step) to
completion, and the image resolver is invoked with exactly the triple
Honda, Civic, 2020. -/
theorem find_car_digit_flow (cat : Catalog) (ctx : Ctx) (mid t0 : Nat) (bid tid : String)
    (hdb : pyIsDigit bid = true) (hdt : pyIsDigit tid = true)
    (hb : selectBrand cat.car_brands (pyStrip bid) = some "Honda")
    (htr : selectTrim (cat.car_models "Honda") (pyStrip tid) = some ("Civic", "2020")) :
    find_car cat ctx mid t0
      [(t0 + 1, .message ⟨ctx.author, ctx.channel, bid⟩),
       (t0 + 2, .message ⟨ctx.author, ctx.channel, tid⟩)]
      = .finished "Honda" "Civic" "2020"
    ∧ resolverCall (find_car cat ctx mid t0
        [(t0 + 1, .message ⟨ctx.author, ctx.channel, bid⟩),
         (t0 + 2, .message ⟨ctx.author, ctx.channel, tid⟩)])
      = some ("Honda", "Civic", "2020") := by
  have h1 : stepPhase cat ctx mid (.waitBrand (t0 + TIMEOUT))
      (t0 + 1, .message ⟨ctx.author, ctx.channel, bid⟩)
      = (.waitModel "Honda" (cat.car_models "Honda") (paginate (cat.car_models "Honda"))
          0 (t0 + 1 + TIMEOUT),
         [.renderModels "Honda" (pageAt (paginate (cat.car_models "Honda")) 0)]) := by
    simp [stepPhase, check, hdb, hb, show ¬ t0 + TIMEOUT ≤ t0 + 1 by unfold TIMEOUT; omega]
  have h2 : stepPhase cat ctx mid
      (.waitModel "Honda" (cat.car_models "Honda") (paginate (cat.car_models "Honda"))
        0 (t0 + 1 + TIMEOUT))
      (t0 + 2, .message ⟨ctx.author, ctx.channel, tid⟩)
      = (.finished "Honda" "Civic" "2020", []) := by
    simp [stepPhase, check, hdt, htr, show ¬ t0 + 1 + TIMEOUT ≤ t0 + 2 by unfold TIMEOUT; omega]
  have hrun : find_car cat ctx mid t0
      [(t0 + 1, .message ⟨ctx.author, ctx.channel, bid⟩),
       (t0 + 2, .message ⟨ctx.author, ctx.channel, tid⟩)]
      = .finished "Honda" "Civic" "2020" := by
    unfold find_car
    simp only [List.foldl_cons, List.foldl_nil, h1, h2]
    rfl
  exact ⟨hrun, by rw [hrun]; rfl⟩

/-- Concrete instantiation of find_car_digit_flow on the example catalog:
brand number 1, trim number 1. -/
theorem find_car_digit_flow_witness :
    pyIsDigit "1" = true
    ∧ selectBrand exampleCatalog.car_brands (pyStrip "1") = some "Honda"
    ∧ selectTrim (exampleCatalog.car_models "Honda") (pyStrip "1") = some ("Civic", "2020")
    ∧ resolverCall (find_car exampleCatalog exampleCtx 0 0
        [(1, .message ⟨0, 0, "1"⟩), (2, .message ⟨0, 0, "1"⟩)])
      = some ("Honda", "Civic", "2020") :=
  ⟨by decide, by decide, by decide,
   (find_car_digit_flow exampleCatalog exampleCtx 0 0 "1" "1"
     (by decide) (by decide) (by decide) (by decide)).2⟩

end CarGuy
